import Mathlib

/-!
Shallow embedding of the cognitex.v2 multi-agent pipeline.

The embedding follows the Python sources:
* `app/orchestrator/message.py` — `Message`, `MessageType`, `MessagePriority`,
  `create_reply`, `create_error_reply`;
* `app/orchestrator/simple_orchestrator.py` — `SimpleOrchestrator` and its
  queueing / dispatch operations;
* `app/agents/base_agent.py` — `BaseAgent.handle_message` / `_handle_command`;
* `app/agents/email_agent.py` — `EmailAgent.process_new_emails`,
  `_process_email_batch`, `_create_fallback_email`, `EmailAgent.handle_message`;
* `app/agents/proactive_synthesis_agent.py` — `_generate_advisor_insights`.

Conventions: Python `Dict[str, Any]` values are modelled by the JSON-like
`Value` type and association lists; auto-generated fields (uuid4 ids,
`datetime.utcnow()` timestamps) are supplied as explicit parameters;
`async` calls are evaluated directly; an LLM call (or any other awaited
collaborator that may raise) is modelled as an `Except`-valued oracle
parameter, so that a raised exception's text is the `.error` case.
-/

namespace Cognitex

/-- JSON-like values, modelling Python `Any` as it occurs in payloads and
extraction records (strings, booleans, numbers, `None`, lists, dicts). -/
inductive Value where
  | null : Value
  | bool (b : Bool) : Value
  | nat (n : Nat) : Value
  | str (s : String) : Value
  | arr (xs : List Value) : Value
  | obj (fields : List (String × Value)) : Value

/-- A Python `Dict[str, Any]` as an association list. -/
abbrev Payload := List (String × Value)

/-- `MessageType` from `message.py`. -/
inductive MessageType where
  | command | query | response | event | error | status
  deriving DecidableEq

/-- `MessagePriority` from `message.py`. -/
inductive MessagePriority where
  | low | normal | high | critical
  deriving DecidableEq

/-- `Message` from `message.py`.  `timestamp` is modelled as a `Nat`
(UTC instants are totally ordered; only their order matters to the code). -/
structure Message where
  id : String
  type : MessageType
  sender : String
  recipient : Option String
  payload : Payload
  priority : MessagePriority
  timestamp : Nat
  correlation_id : Option String
  reply_to : Option String
  metadata : Payload

/-- A `Message(...)` construction that does not pass `correlation_id` or
`reply_to`: pydantic fills both from their field defaults (`None`).
The `id` and `timestamp` defaults (`uuid4()`, `datetime.utcnow()`) are
supplied by the caller here. -/
def Message.new (id : String) (type : MessageType) (sender : String)
    (recipient : Option String) (payload : Payload)
    (priority : MessagePriority) (timestamp : Nat) (metadata : Payload) : Message :=
  { id := id, type := type, sender := sender, recipient := recipient,
    payload := payload, priority := priority, timestamp := timestamp,
    correlation_id := none, reply_to := none, metadata := metadata }

/-- Python `x or y` for an `Optional[str]` `x`: both `None` and the empty
string are falsy, so they fall through to `y`. -/
def pyStrOr (x : Option String) (y : String) : String :=
  match x with
  | some s => if s = "" then y else s
  | none => y

/-- `Message.create_reply` from `message.py`: a new message addressed back to
the original sender, with `type or RESPONSE`, inherited priority,
`correlation_id = self.correlation_id or self.id`, `reply_to = self.id`.
`newId`/`newTs` stand for the pydantic-generated id and timestamp. -/
def Message.create_reply (m : Message) (newId : String) (newTs : Nat)
    (sender : String) (payload : Payload) (ty : Option MessageType) : Message :=
  { id := newId,
    type := ty.getD MessageType.response,
    sender := sender,
    recipient := some m.sender,
    payload := payload,
    priority := m.priority,
    timestamp := newTs,
    correlation_id := some (pyStrOr m.correlation_id m.id),
    reply_to := some m.id,
    metadata := [] }

/-- `Message.create_error_reply` from `message.py`: payload `{"error": error}`
with `details` added only when truthy (a non-empty dict), `type = ERROR`,
priority forced to `HIGH`. -/
def Message.create_error_reply (m : Message) (newId : String) (newTs : Nat)
    (sender : String) (error : String) (details : Option Payload) : Message :=
  let payload : Payload :=
    match details with
    | some d =>
      if d.isEmpty then [("error", Value.str error)]
      else [("error", Value.str error), ("details", Value.obj d)]
    | none => [("error", Value.str error)]
  { id := newId,
    type := MessageType.error,
    sender := sender,
    recipient := some m.sender,
    payload := payload,
    priority := MessagePriority.high,
    timestamp := newTs,
    correlation_id := some (pyStrOr m.correlation_id m.id),
    reply_to := some m.id,
    metadata := [] }

/-- `Message.is_broadcast`: the recipient is `None`. -/
def Message.is_broadcast (m : Message) : Bool :=
  m.recipient.isNone

/-- `Message.is_error`. -/
def Message.is_error (m : Message) : Bool :=
  decide (m.type = MessageType.error)

/-- `Message.is_response_to`. -/
def Message.is_response_to (m : Message) (messageId : String) : Bool :=
  decide (m.reply_to = some messageId)

/-- An agent as the orchestrator sees it: either it has a `handle_message`
coroutine — modelled as a function from the incoming message to either a
raised exception's text or an optional reply — or it lacks the attribute
(the `hasattr` check in `process_message`). -/
inductive AgentBeh where
  | handler (f : Message → Except String (Option Message)) : AgentBeh
  | noHandler : AgentBeh

/-- The state of an `asyncio.Future` held in `_pending_responses`:
still pending, or completed with a result. -/
inductive FutureState where
  | pending : FutureState
  | completed (result : Message) : FutureState

/-- `SimpleOrchestrator` state from `simple_orchestrator.py`.
`_pending_responses` is created lazily in Python; here it is simply a field
that starts empty. -/
structure SimpleOrchestrator where
  agents : List (String × AgentBeh)
  message_queue : List Message
  running : Bool
  processed_count : Nat
  error_count : Nat
  pending_responses : List (String × FutureState)

/-- A fresh `SimpleOrchestrator()` as built by `__init__`. -/
def SimpleOrchestrator.new : SimpleOrchestrator :=
  { agents := [], message_queue := [], running := false,
    processed_count := 0, error_count := 0, pending_responses := [] }

/-- Dict assignment `d[key] = v` on an association list: replaces the first
binding of `key` in place, or appends a new one. -/
def assocSet {α : Type} : List (String × α) → String → α → List (String × α)
  | [], key, v => [(key, v)]
  | (k, w) :: rest, key, v =>
    if k = key then (k, v) :: rest else (k, w) :: assocSet rest key v

/-- Dict deletion `del d[key]` on an association list (first binding). -/
def assocDel {α : Type} (l : List (String × α)) (key : String) : List (String × α) :=
  List.eraseP (fun p => p.1 == key) l

/-- `SimpleOrchestrator._priority_value`: `priority_map.get(priority, 1)`
with all four enum members present in the map. -/
def SimpleOrchestrator.priority_value (p : MessagePriority) : Nat :=
  match p with
  | MessagePriority.low => 0
  | MessagePriority.normal => 1
  | MessagePriority.high => 2
  | MessagePriority.critical => 3

/-- The comparison realised by `message_queue.sort(key=lambda m:
(-priority_value(m.priority), m.timestamp))`: `a` may precede `b` iff the
key of `a` is lexicographically at most the key of `b`. -/
def msgLE (a b : Message) : Bool :=
  decide (SimpleOrchestrator.priority_value b.priority <
          SimpleOrchestrator.priority_value a.priority) ||
  (decide (SimpleOrchestrator.priority_value a.priority =
           SimpleOrchestrator.priority_value b.priority) &&
   decide (a.timestamp ≤ b.timestamp))

/-- `SimpleOrchestrator.send_message`: append, then stable-sort the whole
queue by `(-priority, timestamp)`.  Python `list.sort` is stable, as is
`List.mergeSort`. -/
def SimpleOrchestrator.send_message (st : SimpleOrchestrator) (m : Message) :
    SimpleOrchestrator :=
  { st with message_queue := (st.message_queue ++ [m]).mergeSort msgLE }

/-- `SimpleOrchestrator.broadcast_message`: forces `recipient = None`, then
sends. -/
def SimpleOrchestrator.broadcast_message (st : SimpleOrchestrator) (m : Message) :
    SimpleOrchestrator :=
  st.send_message { m with recipient := none }

/-- `SimpleOrchestrator.register_agent` (replaces an existing entry). -/
def SimpleOrchestrator.register_agent (st : SimpleOrchestrator) (name : String)
    (a : AgentBeh) : SimpleOrchestrator :=
  { st with agents := assocSet st.agents name a }

/-- `SimpleOrchestrator.unregister_agent`. -/
def SimpleOrchestrator.unregister_agent (st : SimpleOrchestrator) (name : String) :
    SimpleOrchestrator :=
  { st with agents := assocDel st.agents name }

/-- `SimpleOrchestrator.process_message`.  The broadcast branch calls every
other agent's `handle_message` (each exception caught and logged inside the
loop, with no orchestrator-state effect) and returns `None`; a targeted
message is looked up in the registry, with the Python truthiness check
`if message.recipient:` treating the empty string like no recipient.
A raising `handle_message` is caught by the surrounding `except`, bumping
`error_count` and answering with an error reply.  `genId`/`genTs` stand for
the pydantic-generated id and timestamp of any error reply built here. -/
def SimpleOrchestrator.process_message (st : SimpleOrchestrator) (m : Message)
    (genId : String) (genTs : Nat) : SimpleOrchestrator × Option Message :=
  match m.recipient with
  | none => (st, none)
  | some r =>
    if r = "" then (st, none)
    else
      match st.agents.lookup r with
      | none =>
        (st, some (m.create_error_reply genId genTs "orchestrator"
          ("Unknown agent: " ++ r) none))
      | some AgentBeh.noHandler =>
        (st, some (m.create_error_reply genId genTs "orchestrator"
          ("Agent " ++ r ++ " cannot handle messages") none))
      | some (AgentBeh.handler f) =>
        match f m with
        | Except.ok resp =>
          ({ st with processed_count := st.processed_count + 1 }, resp)
        | Except.error e =>
          ({ st with error_count := st.error_count + 1 },
           some (m.create_error_reply genId genTs "orchestrator" e none))

/-- A supply of fresh (id, timestamp) pairs for replies generated while
draining the queue. -/
def nextGen (gens : List (String × Nat)) : (String × Nat) × List (String × Nat) :=
  match gens with
  | [] => (("", 0), [])
  | g :: rest => (g, rest)

/-- `SimpleOrchestrator.process_queue`: while the queue is non-empty, pop the
head, process it, and re-enqueue any response via `send_message`.  The Python
loop can run unboundedly when agents keep replying, so the embedding takes a
fuel bound. -/
def SimpleOrchestrator.process_queue :
    Nat → List (String × Nat) → SimpleOrchestrator → SimpleOrchestrator
  | 0, _, st => st
  | Nat.succ fuel, gens, st =>
    match st.message_queue with
    | [] => st
    | m :: rest =>
      let g := nextGen gens
      let pr := SimpleOrchestrator.process_message
        { st with message_queue := rest } m g.1.1 g.1.2
      match pr.2 with
      | some resp =>
        SimpleOrchestrator.process_queue fuel g.2 (pr.1.send_message resp)
      | none => SimpleOrchestrator.process_queue fuel g.2 pr.1

/-- `SimpleOrchestrator.send_and_wait`, branch taken when `self.running` is
false: register a pending future under the message id, `send_message`, call
`process_message` directly on the message, and in the `finally` clause drop
the pending entry.  Whatever `process_message` returned is the result (a
truthy response is returned early; `None` falls through to the implicit
`return None`). -/
def SimpleOrchestrator.send_and_wait_immediate (st : SimpleOrchestrator)
    (m : Message) (genId : String) (genTs : Nat) :
    SimpleOrchestrator × Option Message :=
  let st1 := { st with
    pending_responses := assocSet st.pending_responses m.id FutureState.pending }
  let st2 := st1.send_message m
  let pr := st2.process_message m genId genTs
  ({ pr.1 with pending_responses := assocDel pr.1.pending_responses m.id }, pr.2)

/-- The operations of `SimpleOrchestrator` that can run while a
`send_and_wait` caller is awaiting its future (the dispatch loop's
`process_queue`, plus anything another task may invoke). -/
inductive OrchOp where
  | register (name : String) (beh : AgentBeh) : OrchOp
  | unregister (name : String) : OrchOp
  | send (m : Message) : OrchOp
  | broadcast (m : Message) : OrchOp
  | processMsg (m : Message) (genId : String) (genTs : Nat) : OrchOp
  | processQueue (fuel : Nat) (gens : List (String × Nat)) : OrchOp
  | sendAndWaitImmediate (m : Message) (genId : String) (genTs : Nat) : OrchOp
  | stop : OrchOp

/-- State effect of each orchestrator operation. -/
def applyOp (st : SimpleOrchestrator) : OrchOp → SimpleOrchestrator
  | OrchOp.register name beh => st.register_agent name beh
  | OrchOp.unregister name => st.unregister_agent name
  | OrchOp.send m => st.send_message m
  | OrchOp.broadcast m => st.broadcast_message m
  | OrchOp.processMsg m gid gts => (st.process_message m gid gts).1
  | OrchOp.processQueue fuel gens =>
    SimpleOrchestrator.process_queue fuel gens st
  | OrchOp.sendAndWaitImmediate m gid gts =>
    (st.send_and_wait_immediate m gid gts).1
  | OrchOp.stop => { st with running := false }

/-- `SimpleOrchestrator.send_and_wait`, branch taken when `self.running` is
true: register a pending future, `send_message`, then await the future with
a timeout while the rest of the system (`ops`) runs.  The await returns a
response exactly when some operation completed the future by the deadline;
otherwise `asyncio.wait_for` raises `TimeoutError` and the call returns
`None`.  The `finally` clause drops the pending entry either way. -/
def SimpleOrchestrator.send_and_wait_running (st : SimpleOrchestrator)
    (m : Message) (ops : List OrchOp) : SimpleOrchestrator × Option Message :=
  let st1 := { st with
    pending_responses := assocSet st.pending_responses m.id FutureState.pending }
  let st2 := st1.send_message m
  let st3 := ops.foldl applyOp st2
  let result :=
    match st3.pending_responses.lookup m.id with
    | some (FutureState.completed r) => some r
    | _ => none
  ({ st3 with pending_responses := assocDel st3.pending_responses m.id }, result)

/-- `AgentStatus` from `base_agent.py`. -/
inductive AgentStatus where
  | idle | processing | error | stopped
  deriving DecidableEq

/-- `AgentResult` from `base_agent.py`.  `processing_time_ms` is a `Nat`
(times are modelled in milliseconds). -/
structure AgentResult where
  success : Bool
  data : Option Payload
  error : Option String
  metadata : Payload
  processing_time_ms : Option Nat
  timestamp : Nat

/-- Python `Optional[str]` as a JSON value. -/
def optStrVal (o : Option String) : Value :=
  match o with
  | some s => Value.str s
  | none => Value.null

/-- Python `Optional[Dict[str, Any]]` as a JSON value. -/
def optPayloadVal (o : Option Payload) : Value :=
  match o with
  | some p => Value.obj p
  | none => Value.null

/-- Python `Optional[float]` (here `Nat`-valued) as a JSON value. -/
def optNatVal (o : Option Nat) : Value :=
  match o with
  | some n => Value.nat n
  | none => Value.null

/-- `AgentResult.dict()` as used for the reply payload in
`BaseAgent._handle_command`. -/
def AgentResult.toPayload (r : AgentResult) : Payload :=
  [("success", Value.bool r.success),
   ("data", optPayloadVal r.data),
   ("error", optStrVal r.error),
   ("metadata", Value.obj r.metadata),
   ("processing_time_ms", optNatVal r.processing_time_ms),
   ("timestamp", Value.nat r.timestamp)]

/-- The mutable per-agent state from `BaseAgent.__init__`.  `lock_acquired`
instruments the number of entries into `async with self._lock`, so that the
locking discipline of `_handle_command` can be stated. -/
structure AgentState where
  name : String
  description : String
  status : AgentStatus
  last_run : Option Nat
  run_count : Nat
  error_count : Nat
  lock_acquired : Nat

/-- `BaseAgent._handle_command`: under the lock, flip status to `PROCESSING`,
run `process` (outcome passed as the `proc` oracle: `.ok result` for a normal
return, `.error e` for a raised exception with text `e`), and either record
the run and reply, or record the error and error-reply.  `tStart`/`tEnd` are
the two `datetime.utcnow()` readings (milliseconds); `genId`/`genTs` are the
reply's generated id and timestamp. -/
def BaseAgent.handle_command (st : AgentState) (m : Message)
    (proc : Except String AgentResult) (tStart tEnd : Nat)
    (genId : String) (genTs : Nat) : AgentState × Message :=
  let locked := { st with
    lock_acquired := st.lock_acquired + 1, status := AgentStatus.processing }
  match proc with
  | Except.ok result =>
    let timed := { result with processing_time_ms := some (tEnd - tStart) }
    ({ locked with
        last_run := some tEnd,
        run_count := locked.run_count + 1,
        status := AgentStatus.idle },
     m.create_reply genId genTs st.name timed.toPayload none)
  | Except.error e =>
    ({ locked with
        error_count := locked.error_count + 1,
        status := AgentStatus.error },
     m.create_error_reply genId genTs st.name e none)

/-- `BaseAgent.handle_message`: dispatch on the message type.  `COMMAND` and
`QUERY` both go through `_handle_command` (`_handle_query` delegates);
`EVENT` logs and returns `None`; any other type warns and returns `None`.
The surrounding `try`/`except` makes the adapter total: in the embedding,
totality is by construction, and the context extraction cannot fail. -/
def BaseAgent.handle_message (st : AgentState) (m : Message)
    (proc : Except String AgentResult) (tStart tEnd : Nat)
    (genId : String) (genTs : Nat) : AgentState × Option Message :=
  match m.type with
  | MessageType.command =>
    let r := BaseAgent.handle_command st m proc tStart tEnd genId genTs
    (r.1, some r.2)
  | MessageType.query =>
    let r := BaseAgent.handle_command st m proc tStart tEnd genId genTs
    (r.1, some r.2)
  | MessageType.event => (st, none)
  | _ => (st, none)

/-- An email as returned by `gmail_tools.get_emails_since` and consumed by
`EmailAgent.process_new_emails` (all the keys the agent indexes into). -/
structure Email where
  id : String
  subject : String
  sender : String
  date : String
  snippet : String
  body : String
  threadId : String
  has_attachments : Bool
  labels : List String

/-- One element of the JSON array the batch-extraction LLM is asked to
return: the per-email analysis object, each field read with
`analysis.get(key, default)` and hence optional. -/
structure EmailAnalysis where
  id : String
  summary : Option String
  intent : Option String
  entities : Option Value
  commitments : Option Value
  sentiment : Option String
  is_reply_needed : Option Bool
  urgency_score : Option Nat
  is_work_related : Option Bool
  sender_importance : Option String

/-- The record built in `_process_email_batch` when an analysis with a
matching id was found, with the source's `.get` defaults. -/
def processedRecord (e : Email) (a : EmailAnalysis) : Payload :=
  [("id", Value.str e.id),
   ("subject", Value.str e.subject),
   ("sender", Value.str e.sender),
   ("date", Value.str e.date),
   ("thread_id", Value.str e.threadId),
   ("has_attachments", Value.bool e.has_attachments),
   ("labels", Value.arr (e.labels.map Value.str)),
   ("summary", Value.str (a.summary.getD e.snippet)),
   ("intent", Value.str (a.intent.getD "Unknown")),
   ("entities", a.entities.getD (Value.obj [])),
   ("commitments", a.commitments.getD (Value.obj [])),
   ("sentiment", Value.str (a.sentiment.getD "neutral")),
   ("is_reply_needed", Value.bool (a.is_reply_needed.getD false)),
   ("urgency_score", Value.nat (a.urgency_score.getD 1)),
   ("is_work_related", Value.bool (a.is_work_related.getD false)),
   ("sender_importance", Value.str (a.sender_importance.getD "low")),
   ("original_body", Value.str (e.body.take 1000))]

/-- `EmailAgent._create_fallback_email`: the record built when processing of
an email failed.  Note its exact key set: it has `entities = []`,
`tasks = []`, `requires_response`, `priority = "low"` — and no `intent`,
`urgency_score`, `commitments` or `is_reply_needed` keys at all. -/
def create_fallback_email (e : Email) : Payload :=
  [("id", Value.str e.id),
   ("subject", Value.str e.subject),
   ("sender", Value.str e.sender),
   ("date", Value.str e.date),
   ("thread_id", Value.str e.threadId),
   ("has_attachments", Value.bool e.has_attachments),
   ("labels", Value.arr (e.labels.map Value.str)),
   ("summary", Value.str e.snippet),
   ("entities", Value.arr []),
   ("tasks", Value.arr []),
   ("sentiment", Value.str "neutral"),
   ("requires_response", Value.bool false),
   ("priority", Value.str "low"),
   ("original_body", Value.str (e.body.take 1000))]

/-- Outcome of one batch's `llm_service.simple_completion` call together with
the `json.loads` of its result: the call raised, or the result failed to
parse as JSON, or it parsed to a list of analysis objects. -/
inductive BatchOutcome where
  | llmError (e : String) : BatchOutcome
  | parseError : BatchOutcome
  | parsed (analyses : List EmailAnalysis) : BatchOutcome

/-- `EmailAgent._process_email_batch`: on an LLM exception or a JSON parse
failure every email of the batch degrades to `_create_fallback_email`; on a
parsed response each email is matched against the analyses by id
(`next((a for a in batch_analysis if a.get('id') == email['id']), None)`),
falling back per email when no analysis matches. -/
def process_email_batch (emails : List Email) (outcome : BatchOutcome) :
    List Payload :=
  match outcome with
  | BatchOutcome.llmError _ => emails.map create_fallback_email
  | BatchOutcome.parseError => emails.map create_fallback_email
  | BatchOutcome.parsed analyses =>
    emails.map (fun e =>
      match analyses.find? (fun a => a.id == e.id) with
      | some a => processedRecord e a
      | none => create_fallback_email e)

/-- The batching loop of `EmailAgent.process_new_emails`
(`for i in range(0, len(emails), batch_size)` with `batch_size = 5`),
with the per-batch LLM outcome drawn from `oracle` by batch number. -/
def process_batches (oracle : Nat → BatchOutcome) :
    Nat → List Email → List Payload
  | _, [] => []
  | i, e :: rest =>
    process_email_batch ((e :: rest).take 5) (oracle i) ++
      process_batches oracle (i + 1) ((e :: rest).drop 5)
  termination_by _ l => l.length
  decreasing_by
    simp [List.length_drop]
    omega

/-- `EmailAgent.process_new_emails` after the Gmail fetch: empty input
returns `[]`, otherwise the batches are processed in order. -/
def process_new_emails (emails : List Email) (oracle : Nat → BatchOutcome) :
    List Payload :=
  if emails.isEmpty then [] else process_batches oracle 0 emails

/-- The reply payload built by `EmailAgent.handle_message` for a command. -/
def emailReplyPayload (r : AgentResult) : Payload :=
  [("success", Value.bool r.success),
   ("data", if r.success then optPayloadVal r.data else Value.null),
   ("error", if r.success then Value.null else optStrVal r.error)]

/-- `EmailAgent.handle_message`, the override of the base adapter: a
`COMMAND` message calls `process` directly (its outcome `procResult` — the
method catches its own exceptions and always returns an `AgentResult`) and
wraps it in a reply; every other type returns `None`.  No lock is taken and
no status/counter fields are touched, so the agent state is returned
unchanged. -/
def EmailAgent.handle_message (st : AgentState) (m : Message)
    (procResult : AgentResult) (genId : String) (genTs : Nat) :
    AgentState × Option Message :=
  match m.type with
  | MessageType.command =>
    (st, some (m.create_reply genId genTs st.name
      (emailReplyPayload procResult) none))
  | _ => (st, none)

/-- The value found under `analysis.get('social_notes', {})` in
`_generate_advisor_insights`: a dict (with `replies_needed` and
`relationship_nudges` lists), or a non-dict value (the heuristic fallback
paths of `_analyze_priorities` store a list there). -/
inductive SocialNotesV where
  | dict (replies_needed : List String) (relationship_nudges : List String) :
    SocialNotesV
  | nonDict : SocialNotesV

/-- The `priorities` dict of a priority-analysis result. -/
structure PriorityBuckets where
  urgent : List String
  important : List String
  deferred : List String

/-- The priority-analysis output consumed by `_generate_advisor_insights`
(every `_analyze_priorities` path populates `priorities` with the three
bucket keys; `social_notes` and `deadlines` are read with `.get`). -/
structure PriorityAnalysisResult where
  priorities : PriorityBuckets
  social_notes : Option SocialNotesV
  deadlines : List String

/-- A stale relationship entry from `_get_relationship_context`. -/
structure StaleRelationship where
  email : String
  name : String
  days_since_contact : Nat
  summary : String

/-- A pending-replies entry from `_get_relationship_context`. -/
structure PendingReplyEntry where
  email : String
  name : String
  pending_count : Nat

/-- `_get_relationship_context`'s return shape (the method catches every
exception and returns the zero shape, so it always yields such a value). -/
structure RelationshipContext where
  total_contacts : Nat
  stale_relationships : List StaleRelationship
  pending_replies : List PendingReplyEntry
  active_contacts : Nat

/-- One insight dict as produced by `_generate_advisor_insights`. -/
structure Insight where
  type : String
  title : String
  content : String
  priority : String
  metadata : Option Payload
  created_at : Nat

/-- `ProactiveSynthesisAgent._generate_advisor_insights`.  The goal fetch is
guarded by its own `try`/`except` (outcome `goalsOutcome`; on success the
first 3 goal contents are used); `_get_relationship_context` always returns
(`relCtx`); the single narrative LLM call's outcome is `llmOutcome`.  On LLM
success: one `daily_briefing` insight, plus one `priority_alert` iff the
urgent bucket is non-empty (Python truthiness of the list).  On an LLM
exception: exactly one `status_update` fallback insight. -/
def generate_advisor_insights (analysis : PriorityAnalysisResult)
    (goalsOutcome : Except String (List String))
    (relCtx : RelationshipContext)
    (llmOutcome : Except String String) (now : Nat) : List Insight :=
  let replies_needed :=
    match analysis.social_notes with
    | some (SocialNotesV.dict r _) => r
    | some SocialNotesV.nonDict => []
    | none => []
  let nudges :=
    match analysis.social_notes with
    | some (SocialNotesV.dict _ n) => n
    | some SocialNotesV.nonDict => []
    | none => []
  let user_goals :=
    match goalsOutcome with
    | Except.ok gs => gs.take 3
    | Except.error _ => []
  match llmOutcome with
  | Except.ok result =>
    let briefing : Insight :=
      { type := "daily_briefing",
        title := "Your Intelligent Daily Brief",
        content := result,
        priority := if analysis.priorities.urgent.isEmpty then "normal" else "high",
        metadata := some
          [("urgent_count", Value.nat analysis.priorities.urgent.length),
           ("important_count", Value.nat analysis.priorities.important.length),
           ("social_count", Value.nat (replies_needed.length + nudges.length)),
           ("active_goals", Value.nat user_goals.length),
           ("stale_relationships", Value.nat relCtx.stale_relationships.length),
           ("pending_replies", Value.nat relCtx.pending_replies.length)],
        created_at := now }
    if analysis.priorities.urgent.isEmpty then [briefing]
    else
      [briefing,
       { type := "priority_alert",
         title := "Urgent Items Requiring Attention",
         content := String.intercalate "\n" (analysis.priorities.urgent.take 5),
         priority := "high",
         metadata := none,
         created_at := now }]
  | Except.error _ =>
    [{ type := "status_update",
       title := "Synthesis Complete",
       content := "Analysis completed but insight generation encountered an issue.",
       priority := "low",
       metadata := none,
       created_at := now }]

/-! ## Sample values used by concrete counterexamples and witnesses -/

/-- A command from alice to bob, fields as a caller would pass them. -/
def sampleMsg : Message :=
  Message.new "m1" MessageType.command "alice" (some "bob") []
    MessagePriority.normal 0 []

/-- A message whose `correlation_id` is the empty string (a legal
`Optional[str]` value in the source). -/
def msgEmptyCorr : Message :=
  { id := "orig", type := MessageType.query, sender := "alice",
    recipient := some "bob", payload := [], priority := MessagePriority.normal,
    timestamp := 3, correlation_id := some "", reply_to := none, metadata := [] }

/-- A concrete email record. -/
def sampleEmail : Email :=
  { id := "e1", subject := "subj", sender := "a@b", date := "2026-01-01",
    snippet := "snip", body := "body", threadId := "t1",
    has_attachments := false, labels := [] }

/-- A concrete agent state as built by `BaseAgent.__init__`. -/
def sampleAgentState : AgentState :=
  { name := "EmailAgent", description := "", status := AgentStatus.idle,
    last_run := none, run_count := 0, error_count := 0, lock_acquired := 0 }

/-- A priority analysis with one urgent item. -/
def sampleAnalysis : PriorityAnalysisResult :=
  { priorities := { urgent := ["u1"], important := [], deferred := [] },
    social_notes := none, deadlines := [] }

/-- An empty relationship context. -/
def sampleRelCtx : RelationshipContext :=
  { total_contacts := 0, stale_relationships := [], pending_replies := [],
    active_contacts := 0 }

/-! ## C8 — `correlation_id` default -/

/-- C8 counterexample: a message constructed without an explicit
`correlation_id` has `correlation_id = None`, not its own id, contradicting
the claim that it defaults to the message's own id. -/
theorem message_new_correlation_counterexample :
    (Message.new "m1" MessageType.command "alice" (some "bob") []
      MessagePriority.normal 0 []).correlation_id = none ∧
    (Message.new "m1" MessageType.command "alice" (some "bob") []
      MessagePriority.normal 0 []).correlation_id ≠ some "m1" := by
  constructor
  · rfl
  · simp [Message.new]

/-- C8 amended: for every message constructed without an explicit
`correlation_id`, the field is absent (`None`); the own-id fallback happens
only when a reply is created (`create_reply` / `create_error_reply` use
`self.correlation_id or self.id`). -/
theorem message_new_correlation_id_none (id : String) (ty : MessageType)
    (sender : String) (recipient : Option String) (payload : Payload)
    (priority : MessagePriority) (timestamp : Nat) (metadata : Payload) :
    (Message.new id ty sender recipient payload priority timestamp
      metadata).correlation_id = none := rfl

/-! ## C7 — `create_reply` round-trip -/

/-- C7 counterexample: on a message whose `correlation_id` is present but
equal to `""`, `create_reply` does not keep it — Python's
`self.correlation_id or self.id` treats the empty string as falsy — so the
claim's "correlation_id if present, else id" fails. -/
theorem create_reply_empty_correlation_counterexample :
    msgEmptyCorr.correlation_id = some "" ∧
    (msgEmptyCorr.create_reply "r1" 7 "bob" [] none).correlation_id =
      some "orig" ∧
    (msgEmptyCorr.create_reply "r1" 7 "bob" [] none).correlation_id ≠
      some "" := by
  refine ⟨rfl, rfl, ?_⟩
  simp [msgEmptyCorr, Message.create_reply, pyStrOr]

/-- C7 amended: `create_reply` on `M` yields `reply_to = M.id`,
`recipient = M.sender`, `priority = M.priority`, and
`correlation_id = M.correlation_id` when that is present and non-empty,
else `M.id` (Python `or` treats both `None` and `""` as falsy).  The
operation is a pure constructor, so `M` itself is untouched. -/
theorem create_reply_spec (m : Message) (newId : String) (newTs : Nat)
    (sender : String) (payload : Payload) (ty : Option MessageType) :
    (m.create_reply newId newTs sender payload ty).reply_to = some m.id ∧
    (m.create_reply newId newTs sender payload ty).recipient = some m.sender ∧
    (m.create_reply newId newTs sender payload ty).priority = m.priority ∧
    (∀ s, m.correlation_id = some s → s ≠ "" →
      (m.create_reply newId newTs sender payload ty).correlation_id = some s) ∧
    ((m.correlation_id = none ∨ m.correlation_id = some "") →
      (m.create_reply newId newTs sender payload ty).correlation_id =
        some m.id) := by
  refine ⟨rfl, rfl, rfl, ?_, ?_⟩
  · intro s hs hne
    simp [Message.create_reply, pyStrOr, hs, hne]
  · rintro (h | h) <;> simp [Message.create_reply, pyStrOr, h]

/-- C7 witness: `create_reply_spec` applied at `msgEmptyCorr`. -/
theorem create_reply_spec_witness :
    (msgEmptyCorr.create_reply "r1" 7 "bob" [] none).correlation_id =
      some msgEmptyCorr.id :=
  (create_reply_spec msgEmptyCorr "r1" 7 "bob" [] none).2.2.2.2 (Or.inr rfl)

/-! ## C2 — insight generation never returns an empty list -/

/-- C2: `_generate_advisor_insights` never returns an empty list; when the
narrative LLM call succeeds the result contains a `daily_briefing` insight
and contains a `priority_alert` insight iff the urgent bucket is non-empty;
when the LLM call raises, the result is exactly one `status_update`
fallback insight. -/
theorem generate_advisor_insights_spec (analysis : PriorityAnalysisResult)
    (goalsOutcome : Except String (List String)) (relCtx : RelationshipContext)
    (llmOutcome : Except String String) (now : Nat) :
    generate_advisor_insights analysis goalsOutcome relCtx llmOutcome now ≠ [] ∧
    (∀ s, llmOutcome = Except.ok s →
      (∃ i ∈ generate_advisor_insights analysis goalsOutcome relCtx llmOutcome
          now, i.type = "daily_briefing") ∧
      ((∃ i ∈ generate_advisor_insights analysis goalsOutcome relCtx llmOutcome
          now, i.type = "priority_alert") ↔ analysis.priorities.urgent ≠ [])) ∧
    (∀ e, llmOutcome = Except.error e →
      ∃ i, generate_advisor_insights analysis goalsOutcome relCtx llmOutcome
          now = [i] ∧ i.type = "status_update") := by
  rcases llmOutcome with e | s
  · refine ⟨?_, ?_, ?_⟩
    · simp [generate_advisor_insights]
    · intro s hs
      exact absurd hs (by simp)
    · intro e' _
      exact ⟨_, rfl, rfl⟩
  · by_cases hurg : analysis.priorities.urgent.isEmpty
    · have hnil : analysis.priorities.urgent = [] := by
        simpa [List.isEmpty_iff] using hurg
      refine ⟨?_, ?_, ?_⟩
      · simp [generate_advisor_insights, hurg]
      · intro s' _
        constructor
        · simp [generate_advisor_insights, hurg]
        · simp [generate_advisor_insights, hurg, hnil]
      · intro e he
        exact absurd he (by simp)
    · have hne : analysis.priorities.urgent ≠ [] := by
        simpa [List.isEmpty_iff] using hurg
      refine ⟨?_, ?_, ?_⟩
      · simp [generate_advisor_insights, hurg]
      · intro s' _
        constructor
        · simp [generate_advisor_insights, hurg]
        · constructor
          · intro _
            exact hne
          · intro _
            simp [generate_advisor_insights, hurg]
      · intro e he
        exact absurd he (by simp)

/-- C2 witness: `generate_advisor_insights_spec` at concrete inputs with a
successful LLM call and one urgent item. -/
theorem generate_advisor_insights_spec_witness :
    ∃ i ∈ generate_advisor_insights sampleAnalysis (Except.error "goals down")
        sampleRelCtx (Except.ok "brief") 0, i.type = "daily_briefing" :=
  ((generate_advisor_insights_spec sampleAnalysis (Except.error "goals down")
    sampleRelCtx (Except.ok "brief") 0).2.1 "brief" rfl).1

/-! ## C4 — the base adapter's error boundary -/

/-- C4: for a `COMMAND` or `QUERY` message, `BaseAgent.handle_message` always
answers (never raises — the embedding is total and every `process` outcome is
handled): when `process` raises `e`, the answer is an error reply whose
payload carries the exception text, the status becomes `ERROR` and the error
counter is incremented; when `process` succeeds, the status returns to
`IDLE`, the run counter is incremented and the result (with its measured
processing time) is wrapped in a reply. -/
theorem base_handle_message_spec (st : AgentState) (m : Message)
    (proc : Except String AgentResult) (tStart tEnd : Nat)
    (gid : String) (gts : Nat)
    (hty : m.type = MessageType.command ∨ m.type = MessageType.query) :
    (∃ r, (BaseAgent.handle_message st m proc tStart tEnd gid gts).2 = some r) ∧
    (∀ e, proc = Except.error e →
      (BaseAgent.handle_message st m proc tStart tEnd gid gts).2 =
        some (m.create_error_reply gid gts st.name e none) ∧
      (m.create_error_reply gid gts st.name e none).payload.lookup "error" =
        some (Value.str e) ∧
      (BaseAgent.handle_message st m proc tStart tEnd gid gts).1.status =
        AgentStatus.error ∧
      (BaseAgent.handle_message st m proc tStart tEnd gid gts).1.error_count =
        st.error_count + 1) ∧
    (∀ r, proc = Except.ok r →
      (BaseAgent.handle_message st m proc tStart tEnd gid gts).1.status =
        AgentStatus.idle ∧
      (BaseAgent.handle_message st m proc tStart tEnd gid gts).1.run_count =
        st.run_count + 1 ∧
      (BaseAgent.handle_message st m proc tStart tEnd gid gts).2 =
        some (m.create_reply gid gts st.name
          (AgentResult.toPayload
            { r with processing_time_ms := some (tEnd - tStart) }) none)) := by
  have hmsg : BaseAgent.handle_message st m proc tStart tEnd gid gts =
      ((BaseAgent.handle_command st m proc tStart tEnd gid gts).1,
       some (BaseAgent.handle_command st m proc tStart tEnd gid gts).2) := by
    rcases hty with h | h <;> simp [BaseAgent.handle_message, h]
  rw [hmsg]
  rcases proc with e | r
  · refine ⟨⟨_, rfl⟩, ?_, ?_⟩
    · intro e' he
      cases he
      refine ⟨?_, ?_, ?_, ?_⟩
      · simp [BaseAgent.handle_command]
      · simp [Message.create_error_reply, List.lookup]
      · simp [BaseAgent.handle_command]
      · simp [BaseAgent.handle_command]
    · intro r hr
      exact absurd hr (by simp)
  · refine ⟨⟨_, rfl⟩, ?_, ?_⟩
    · intro e he
      exact absurd he (by simp)
    · intro r' hr
      cases hr
      refine ⟨?_, ?_, ?_⟩
      · simp [BaseAgent.handle_command]
      · simp [BaseAgent.handle_command]
      · simp [BaseAgent.handle_command]

/-- C4 witness: `base_handle_message_spec` at a concrete command whose
`process` raised `"boom"`. -/
theorem base_handle_message_spec_witness :
    (BaseAgent.handle_message sampleAgentState sampleMsg
      (Except.error "boom") 0 4 "r1" 5).1.status = AgentStatus.error :=
  (((base_handle_message_spec sampleAgentState sampleMsg (Except.error "boom")
    0 4 "r1" 5 (Or.inl rfl)).2.1) "boom" rfl).2.2.1

/-! ## C10 — the EmailAgent override of the adapter -/

/-- C10: `EmailAgent.handle_message` returns `None` for every non-`COMMAND`
message (in particular `QUERY` and `EVENT`), leaves the agent state — status,
run/error counters, `last_run`, and the lock-acquisition count — completely
unchanged, and for a `COMMAND` wraps the `process` result in a reply;
by contrast the base adapter's `_handle_command` always takes the lock and
bumps either the run counter or the error counter. -/
theorem email_handle_message_spec :
    (∀ (st : AgentState) (m : Message) (r : AgentResult) (gid : String)
      (gts : Nat), m.type ≠ MessageType.command →
      (EmailAgent.handle_message st m r gid gts).2 = none) ∧
    (∀ (st : AgentState) (m : Message) (r : AgentResult) (gid : String)
      (gts : Nat), (EmailAgent.handle_message st m r gid gts).1 = st) ∧
    (∀ (st : AgentState) (m : Message) (r : AgentResult) (gid : String)
      (gts : Nat), m.type = MessageType.command →
      (EmailAgent.handle_message st m r gid gts).2 =
        some (m.create_reply gid gts st.name (emailReplyPayload r) none)) ∧
    (∀ (st : AgentState) (m : Message) (proc : Except String AgentResult)
      (tStart tEnd : Nat) (gid : String) (gts : Nat),
      (BaseAgent.handle_command st m proc tStart tEnd gid gts).1.lock_acquired =
        st.lock_acquired + 1 ∧
      ((BaseAgent.handle_command st m proc tStart tEnd gid gts).1.run_count =
          st.run_count + 1 ∨
       (BaseAgent.handle_command st m proc tStart tEnd gid gts).1.error_count =
          st.error_count + 1)) := by
  refine ⟨?_, ?_, ?_, ?_⟩
  · intro st m r gid gts h
    cases hty : m.type
    case command => exact absurd hty h
    all_goals simp [EmailAgent.handle_message, hty]
  · intro st m r gid gts
    cases hty : m.type <;> simp [EmailAgent.handle_message, hty]
  · intro st m r gid gts h
    simp [EmailAgent.handle_message, h]
  · intro st m proc tStart tEnd gid gts
    rcases proc with e | r
    · exact ⟨rfl, Or.inr rfl⟩
    · exact ⟨rfl, Or.inl rfl⟩

/-- C10 witness: a `QUERY` message is answered with `None` by the EmailAgent
override. -/
theorem email_handle_message_spec_witness :
    (EmailAgent.handle_message sampleAgentState
      { sampleMsg with type := MessageType.query }
      { success := true, data := none, error := none, metadata := [],
        processing_time_ms := none, timestamp := 0 } "r1" 5).2 = none :=
  email_handle_message_spec.1 sampleAgentState
    { sampleMsg with type := MessageType.query }
    { success := true, data := none, error := none, metadata := [],
      processing_time_ms := none, timestamp := 0 } "r1" 5 (by simp [sampleMsg])

/-! ## Orchestrator state lemmas shared by the dispatch claims -/

/-- `process_message` only ever touches the two counters: the agent registry,
the message queue and the pending-responses map come back unchanged. -/
theorem process_message_state (st : SimpleOrchestrator) (m : Message)
    (gid : String) (gts : Nat) :
    (st.process_message m gid gts).1.message_queue = st.message_queue ∧
    (st.process_message m gid gts).1.pending_responses = st.pending_responses ∧
    (st.process_message m gid gts).1.agents = st.agents := by
  unfold SimpleOrchestrator.process_message
  repeat' split
  all_goals exact ⟨rfl, rfl, rfl⟩

/-! ## C5 — unknown recipient -/

/-- C5 counterexample: a message addressed to the empty-string recipient —
a name certainly not present in the (empty) registry — is answered with
`None`, not with an error reply: `if message.recipient:` treats `""` as
falsy, so the unknown-agent branch is never reached. -/
theorem process_message_empty_recipient_counterexample :
    (Message.new "m2" MessageType.command "alice" (some "") []
      MessagePriority.normal 0 []).recipient = some "" ∧
    SimpleOrchestrator.new.agents.lookup "" = none ∧
    (SimpleOrchestrator.new.process_message
      (Message.new "m2" MessageType.command "alice" (some "") []
        MessagePriority.normal 0 []) "g1" 1).2 = none :=
  ⟨rfl, rfl, rfl⟩

/-- C5 amended: for every message addressed to a non-empty recipient name
absent from the registry, `process_message` returns an Orchestrator-authored
error reply whose error text names the unknown recipient (and leaves the
state unchanged), and `send_and_wait` taken on the not-running branch
returns that same reply rather than `None` or a timeout; a message whose
recipient is the empty string instead falls into the no-recipient branch
and yields `None`. -/
theorem process_message_unknown_recipient (st : SimpleOrchestrator)
    (m : Message) (r : String) (gid : String) (gts : Nat)
    (hr : m.recipient = some r) (hne : r ≠ "")
    (hlook : st.agents.lookup r = none) :
    (st.process_message m gid gts).2 =
      some (m.create_error_reply gid gts "orchestrator"
        ("Unknown agent: " ++ r) none) ∧
    (st.process_message m gid gts).1 = st ∧
    (st.send_and_wait_immediate m gid gts).2 =
      some (m.create_error_reply gid gts "orchestrator"
        ("Unknown agent: " ++ r) none) ∧
    (∃ pre post, "Unknown agent: " ++ r = pre ++ r ++ post) := by
  refine ⟨?_, ?_, ?_, "Unknown agent: ", "", by simp⟩
  · simp [SimpleOrchestrator.process_message, hr, hne, hlook]
  · simp [SimpleOrchestrator.process_message, hr, hne, hlook]
  · simp [SimpleOrchestrator.send_and_wait_immediate,
      SimpleOrchestrator.send_message, SimpleOrchestrator.process_message,
      hr, hne, hlook]

/-- C5 witness: `process_message_unknown_recipient` on a fresh orchestrator
and a command addressed to the unregistered agent `"bob"`. -/
theorem process_message_unknown_recipient_witness :
    (SimpleOrchestrator.new.process_message sampleMsg "g1" 1).2 =
      some (sampleMsg.create_error_reply "g1" 1 "orchestrator"
        ("Unknown agent: " ++ "bob") none) :=
  (process_message_unknown_recipient SimpleOrchestrator.new sampleMsg "bob"
    "g1" 1 rfl (by simp) rfl).1

/-! ## C6 — `send_and_wait` on the not-running branch does not drain -/

/-- C6 counterexample: on a fresh (not-running) orchestrator,
`send_and_wait`'s immediate branch leaves the just-enqueued message in the
message queue on exit — it calls `process_message` directly and never pops
the queue — contradicting the claim that the message has been removed. -/
theorem send_and_wait_immediate_counterexample :
    SimpleOrchestrator.new.running = false ∧
    (SimpleOrchestrator.new.send_and_wait_immediate sampleMsg "g1" 1).1.message_queue
      = [sampleMsg] := by
  refine ⟨rfl, ?_⟩
  simp [SimpleOrchestrator.send_and_wait_immediate,
    SimpleOrchestrator.send_message, SimpleOrchestrator.process_message,
    SimpleOrchestrator.new, sampleMsg, Message.new, assocSet, assocDel]

/-- C6 amended: the not-running branch of `send_and_wait` processes the
message exactly once, by a direct `process_message` call, but does not drain
the queue: on exit the enqueued message is still in the message queue, which
is a permutation of the old queue with the message appended (nothing was
removed). -/
theorem send_and_wait_immediate_keeps_message (st : SimpleOrchestrator)
    (m : Message) (gid : String) (gts : Nat) :
    m ∈ (st.send_and_wait_immediate m gid gts).1.message_queue ∧
    (st.send_and_wait_immediate m gid gts).1.message_queue.Perm
      (st.message_queue ++ [m]) ∧
    (st.send_and_wait_immediate m gid gts).2 =
      (SimpleOrchestrator.process_message
        { st with
            pending_responses :=
              assocSet st.pending_responses m.id FutureState.pending,
            message_queue := (st.message_queue ++ [m]).mergeSort msgLE }
        m gid gts).2 := by
  have hq : (st.send_and_wait_immediate m gid gts).1.message_queue =
      (st.message_queue ++ [m]).mergeSort msgLE := by
    simp only [SimpleOrchestrator.send_and_wait_immediate,
      SimpleOrchestrator.send_message]
    exact (process_message_state _ _ _ _).1
  have hperm : (st.send_and_wait_immediate m gid gts).1.message_queue.Perm
      (st.message_queue ++ [m]) := by
    rw [hq]
    exact List.mergeSort_perm _ _
  refine ⟨?_, hperm, ?_⟩
  · exact hperm.mem_iff.mpr (by simp)
  · simp only [SimpleOrchestrator.send_and_wait_immediate,
      SimpleOrchestrator.send_message]

/-! ## C1 — one record per email; the shape of failure records -/

/-- A fallback record has no `intent` key at all. -/
theorem create_fallback_email_no_intent (e : Email) :
    (create_fallback_email e).lookup "intent" = none := rfl

/-- A fallback record has no `urgency_score` key at all. -/
theorem create_fallback_email_no_urgency (e : Email) :
    (create_fallback_email e).lookup "urgency_score" = none := rfl

/-- The per-email correspondence: each output record is either the mapped
analysis record for that email or its `_create_fallback_email` record. -/
def RecordFor (e : Email) (r : Payload) : Prop :=
  (∃ a, r = processedRecord e a) ∨
  (r = create_fallback_email e ∧ r.lookup "intent" = none ∧
    r.lookup "urgency_score" = none)

/-- Each batch produces exactly one record per email of the batch, in
order. -/
theorem forall2_process_email_batch (emails : List Email)
    (outcome : BatchOutcome) :
    List.Forall₂ RecordFor emails (process_email_batch emails outcome) := by
  have hfb : ∀ e ∈ emails, RecordFor e (create_fallback_email e) := by
    intro e _
    exact Or.inr ⟨rfl, create_fallback_email_no_intent e,
      create_fallback_email_no_urgency e⟩
  rcases outcome with e | _ | analyses
  · rw [process_email_batch, List.forall₂_map_right_iff]
    exact List.forall₂_same.mpr hfb
  · rw [process_email_batch, List.forall₂_map_right_iff]
    exact List.forall₂_same.mpr hfb
  · rw [process_email_batch, List.forall₂_map_right_iff]
    refine List.forall₂_same.mpr ?_
    intro e _
    rcases h : analyses.find? (fun a => a.id == e.id) with _ | a
    · simp only [h]
      exact Or.inr ⟨rfl, create_fallback_email_no_intent e,
        create_fallback_email_no_urgency e⟩
    · simp only [h]
      exact Or.inl ⟨a, rfl⟩

/-- The batching loop covers every email exactly once. -/
theorem forall2_process_batches (oracle : Nat → BatchOutcome) :
    ∀ (n : Nat) (emails : List Email), emails.length ≤ n → ∀ i,
      List.Forall₂ RecordFor emails (process_batches oracle i emails) := by
  intro n
  induction n with
  | zero =>
    intro emails hlen i
    have : emails = [] := List.length_eq_zero.mp (Nat.le_zero.mp hlen)
    subst this
    rw [process_batches]
    exact List.Forall₂.nil
  | succ n ih =>
    intro emails hlen i
    match emails with
    | [] =>
      rw [process_batches]
      exact List.Forall₂.nil
    | e :: rest =>
      rw [process_batches]
      have h1 : List.Forall₂ RecordFor
          ((e :: rest).take 5 ++ (e :: rest).drop 5)
          (process_email_batch ((e :: rest).take 5) (oracle i) ++
            process_batches oracle (i + 1) ((e :: rest).drop 5)) := by
        refine List.rel_append (forall2_process_email_batch _ _) ?_
        refine ih _ ?_ (i + 1)
        simp only [List.length_drop, List.length_cons] at *
        omega
      rwa [List.take_append_drop] at h1

/-- C1 counterexample: with a single email and a batch whose LLM answer
fails to parse as JSON, structured extraction fails, and the single output
record is the `_create_fallback_email` record: it carries no
`intent = "Unknown"` and no `urgency_score = 1` — those keys are absent
altogether — contradicting the claimed fixed fallback shape (that shape is
built only in `process_new_emails`' batch-level `except` handler, which the
never-raising `_process_email_batch` cannot trigger). -/
theorem process_new_emails_fallback_counterexample :
    process_new_emails [sampleEmail] (fun _ => BatchOutcome.parseError) =
      [create_fallback_email sampleEmail] ∧
    (create_fallback_email sampleEmail).lookup "intent" = none ∧
    (create_fallback_email sampleEmail).lookup "urgency_score" = none := by
  refine ⟨?_, rfl, rfl⟩
  rw [process_new_emails]
  simp only [List.isEmpty_cons, Bool.false_eq_true, if_false]
  rw [process_batches]
  simp [process_email_batch, process_batches]

/-- C1 amended: `process_new_emails` returns exactly one record per input
email, in order (no record is ever dropped); every record for which
extraction failed is the `_create_fallback_email` record, whose shape has
empty `entities`/`tasks` lists and *no* `intent` or `urgency_score` keys
(rather than `intent = "Unknown"`, `urgency_score = 1`). -/
theorem process_new_emails_one_record_per_email (emails : List Email)
    (oracle : Nat → BatchOutcome) :
    (process_new_emails emails oracle).length = emails.length ∧
    List.Forall₂ RecordFor emails (process_new_emails emails oracle) := by
  have hfa : List.Forall₂ RecordFor emails (process_new_emails emails oracle) := by
    rw [process_new_emails]
    rcases emails with _ | ⟨e, rest⟩
    · exact List.Forall₂.nil
    · simp only [List.isEmpty_cons, Bool.false_eq_true, if_false]
      exact forall2_process_batches oracle (e :: rest).length (e :: rest)
        (Nat.le_refl _) 0
  exact ⟨hfa.length_eq.symm, hfa⟩

/-! ## C9 — nothing ever completes a pending future -/

/-- No future held in `_pending_responses` has been completed. -/
def noCompleted (st : SimpleOrchestrator) : Prop :=
  ∀ p ∈ st.pending_responses, p.2 = FutureState.pending

/-- A successful association-list lookup exhibits a member. -/
theorem lookup_mem {α : Type} (l : List (String × α)) (k : String) (v : α)
    (h : l.lookup k = some v) : (k, v) ∈ l := by
  induction l with
  | nil => simp at h
  | cons p rest ih =>
    obtain ⟨k', v'⟩ := p
    rw [List.lookup_cons] at h
    by_cases hk : k = k'
    · subst hk
      simp only [beq_self_eq_true] at h
      cases h
      exact List.mem_cons_self _ _
    · have hb : (k == k') = false := by simp [hk]
      rw [hb] at h
      exact List.mem_cons_of_mem _ (ih h)

/-- Everything in `assocSet l key v` is an old member or carries `v`. -/
theorem mem_assocSet {α : Type} (l : List (String × α)) (key : String) (v : α)
    (p : String × α) (hp : p ∈ assocSet l key v) : p ∈ l ∨ p.2 = v := by
  induction l with
  | nil =>
    rw [assocSet] at hp
    rcases List.mem_singleton.mp hp with h
    right
    rw [h]
  | cons q rest ih =>
    obtain ⟨k, w⟩ := q
    rw [assocSet] at hp
    by_cases hk : k = key
    · rw [if_pos hk] at hp
      rcases List.mem_cons.mp hp with h | h
      · right
        rw [h]
      · left
        exact List.mem_cons_of_mem _ h
    · rw [if_neg hk] at hp
      rcases List.mem_cons.mp hp with h | h
      · left
        rw [h]
        exact List.mem_cons_self _ _
      · rcases ih h with h1 | h1
        · exact Or.inl (List.mem_cons_of_mem _ h1)
        · exact Or.inr h1

/-- `assocDel` only removes entries. -/
theorem mem_assocDel {α : Type} (l : List (String × α)) (key : String)
    (p : String × α) (hp : p ∈ assocDel l key) : p ∈ l :=
  (List.eraseP_sublist l).mem hp

/-- `send_message` never touches the pending-responses map. -/
theorem send_message_pending (st : SimpleOrchestrator) (m : Message) :
    (st.send_message m).pending_responses = st.pending_responses := rfl

/-- `process_queue` never touches the pending-responses map: it only pops
messages and re-enqueues replies via `send_message`, and never matches a
reply's `reply_to` against a waiting future. -/
theorem process_queue_pending : ∀ (fuel : Nat) (gens : List (String × Nat))
    (st : SimpleOrchestrator),
    (SimpleOrchestrator.process_queue fuel gens st).pending_responses =
      st.pending_responses := by
  intro fuel
  induction fuel with
  | zero =>
    intro gens st
    rfl
  | succ n ih =>
    intro gens st
    simp only [SimpleOrchestrator.process_queue]
    split
    · rfl
    · split
      · rw [ih, send_message_pending]
        exact (process_message_state _ _ _ _).2.1
      · rw [ih]
        exact (process_message_state _ _ _ _).2.1

/-- The not-running `send_and_wait` branch only adds pending entries and
removes entries, so it preserves `noCompleted`. -/
theorem send_and_wait_immediate_noCompleted (st : SimpleOrchestrator)
    (m : Message) (gid : String) (gts : Nat) (h : noCompleted st) :
    noCompleted (st.send_and_wait_immediate m gid gts).1 := by
  intro p hp
  simp only [SimpleOrchestrator.send_and_wait_immediate] at hp
  have hp1 := mem_assocDel _ _ _ hp
  rw [(process_message_state _ _ _ _).2.1, send_message_pending] at hp1
  rcases mem_assocSet _ _ _ _ hp1 with h1 | h1
  · exact h p h1
  · exact h1

/-- Every orchestrator operation preserves `noCompleted`. -/
theorem applyOp_noCompleted (st : SimpleOrchestrator) (op : OrchOp)
    (h : noCompleted st) : noCompleted (applyOp st op) := by
  cases op with
  | register name beh => exact h
  | unregister name => exact h
  | send m => exact h
  | broadcast m => exact h
  | processMsg m gid gts =>
    intro p hp
    rw [applyOp, (process_message_state _ _ _ _).2.1] at hp
    exact h p hp
  | processQueue fuel gens =>
    intro p hp
    rw [applyOp, process_queue_pending] at hp
    exact h p hp
  | sendAndWaitImmediate m gid gts =>
    exact send_and_wait_immediate_noCompleted st m gid gts h
  | stop => exact h

/-- A trace of operations preserves `noCompleted`. -/
theorem foldl_applyOp_noCompleted (ops : List OrchOp) :
    ∀ st, noCompleted st → noCompleted (ops.foldl applyOp st) := by
  induction ops with
  | nil =>
    intro st h
    exact h
  | cons op rest ih =>
    intro st h
    exact ih _ (applyOp_noCompleted st op h)

/-- C9: no `SimpleOrchestrator` operation ever completes a future stored in
the pending-responses map, and consequently every `send_and_wait` call made
while the dispatch loop is running — whatever the loop and other tasks do
meanwhile, and whatever replies the target agent produced — times out and
returns `None`. -/
theorem send_and_wait_running_times_out :
    (∀ (st : SimpleOrchestrator) (op : OrchOp),
      noCompleted st → noCompleted (applyOp st op)) ∧
    (∀ (st : SimpleOrchestrator) (m : Message) (ops : List OrchOp),
      noCompleted st → (st.send_and_wait_running m ops).2 = none) := by
  refine ⟨applyOp_noCompleted, ?_⟩
  intro st m ops h
  have h2 : noCompleted
      (({ st with pending_responses := (assocSet st.pending_responses m.id FutureState.pending) } : SimpleOrchestrator).send_message m) := by
    intro p hp
    rw [send_message_pending] at hp
    rcases mem_assocSet _ _ _ _ hp with h1 | h1
    · exact h p h1
    · exact h1
  have h3 := foldl_applyOp_noCompleted ops _ h2
  show (match (ops.foldl applyOp (({ st with pending_responses := (assocSet st.pending_responses m.id FutureState.pending) } : SimpleOrchestrator).send_message m)).pending_responses.lookup m.id with
        | some (FutureState.completed r) => some r
        | _ => none) = none
  rcases hl : (ops.foldl applyOp (({ st with pending_responses := (assocSet st.pending_responses m.id FutureState.pending) } : SimpleOrchestrator).send_message m)).pending_responses.lookup m.id with _ | fs
  · rfl
  · cases fs with
    | pending => rfl
    | completed r =>
      have hfs := h3 _ (lookup_mem _ _ _ hl)
      exact absurd hfs (by simp)

/-- C9 witness: on a fresh orchestrator, a running-branch `send_and_wait`
returns `None` even though the dispatch loop drains the queue meanwhile. -/
theorem send_and_wait_running_times_out_witness :
    (SimpleOrchestrator.new.send_and_wait_running sampleMsg
      [OrchOp.processQueue 3 [("g1", 1)]]).2 = none :=
  send_and_wait_running_times_out.2 SimpleOrchestrator.new sampleMsg
    [OrchOp.processQueue 3 [("g1", 1)]]
    (by intro p hp; exact absurd hp (List.not_mem_nil p))

/-! ## C3 — the queue is a stable priority order -/

/-- The enqueue operations visible to callers. -/
inductive SendOp where
  | send (m : Message) : SendOp
  | broadcast (m : Message) : SendOp

/-- Effect of an enqueue operation. -/
def applySendOp (st : SimpleOrchestrator) : SendOp → SimpleOrchestrator
  | SendOp.send m => st.send_message m
  | SendOp.broadcast m => st.broadcast_message m

/-- The message as it enters the queue (`broadcast_message` clears the
recipient before sending). -/
def enqueuedMsg : SendOp → Message
  | SendOp.send m => m
  | SendOp.broadcast m => { m with recipient := none }

/-- The sort key used by `send_message` (priority value negated by putting
it first and comparing descending; here kept positive, compared accordingly). -/
def sortKey (m : Message) : Nat × Nat :=
  (SimpleOrchestrator.priority_value m.priority, m.timestamp)

/-- The claim's queue order: priority descending, ties by timestamp
ascending. -/
def queueOrdered (a b : Message) : Prop :=
  SimpleOrchestrator.priority_value b.priority ≤
    SimpleOrchestrator.priority_value a.priority ∧
  (SimpleOrchestrator.priority_value a.priority =
      SimpleOrchestrator.priority_value b.priority →
    a.timestamp ≤ b.timestamp)

/-- `msgLE` is transitive. -/
theorem msgLE_trans : ∀ (a b c : Message), msgLE a b → msgLE b c → msgLE a c := by
  intro a b c hab hbc
  simp only [msgLE, Bool.or_eq_true, Bool.and_eq_true, decide_eq_true_eq] at *
  omega

/-- `msgLE` is total. -/
theorem msgLE_total : ∀ (a b : Message), msgLE a b || msgLE b a := by
  intro a b
  simp only [msgLE, Bool.or_eq_true, Bool.and_eq_true, decide_eq_true_eq]
  omega

/-- Messages with the same sort key are mutually `msgLE`-related. -/
theorem msgLE_of_key_eq {a b : Message} (pv ts : Nat)
    (ha : sortKey a = (pv, ts)) (hb : sortKey b = (pv, ts)) :
    msgLE a b = true := by
  simp only [sortKey, Prod.mk.injEq] at ha hb
  simp only [msgLE, Bool.or_eq_true, Bool.and_eq_true, decide_eq_true_eq]
  omega

/-- Stability of the re-sort: the subsequence of messages with any fixed
sort key is unchanged by `mergeSort msgLE`. -/
theorem mergeSort_filter_key (l : List Message) (pv ts : Nat) :
    (l.mergeSort msgLE).filter (fun m => decide (sortKey m = (pv, ts))) =
      l.filter (fun m => decide (sortKey m = (pv, ts))) := by
  have hpair : (l.filter (fun m => decide (sortKey m = (pv, ts)))).Pairwise
      (fun a b => msgLE a b = true) := by
    refine List.pairwise_of_forall_mem_list ?_
    intro a ha b hb
    have hpa := of_decide_eq_true (List.mem_filter.mp ha).2
    have hpb := of_decide_eq_true (List.mem_filter.mp hb).2
    exact msgLE_of_key_eq pv ts hpa hpb
  have hsub : List.Sublist (l.filter (fun m => decide (sortKey m = (pv, ts))))
      (l.mergeSort msgLE) :=
    List.sublist_mergeSort msgLE_trans msgLE_total hpair (List.filter_sublist l)
  have hcc : (l.filter (fun m => decide (sortKey m = (pv, ts)))).filter
      (fun m => decide (sortKey m = (pv, ts))) =
      l.filter (fun m => decide (sortKey m = (pv, ts))) :=
    List.filter_eq_self.mpr (fun a ha => (List.mem_filter.mp ha).2)
  have hsub2 : List.Sublist (l.filter (fun m => decide (sortKey m = (pv, ts))))
      ((l.mergeSort msgLE).filter (fun m => decide (sortKey m = (pv, ts)))) := by
    have h := hsub.filter (fun m => decide (sortKey m = (pv, ts)))
    rwa [hcc] at h
  have hperm : ((l.mergeSort msgLE).filter
      (fun m => decide (sortKey m = (pv, ts)))).Perm
      (l.filter (fun m => decide (sortKey m = (pv, ts)))) :=
    (List.mergeSort_perm l msgLE).filter _
  exact (hsub2.eq_of_length hperm.symm.length_eq).symm

/-- The queue invariant through any trace of enqueue operations: sorted,
a permutation of everything sent, and per-key stable. -/
theorem foldl_sendops_invariant (ops : List SendOp) :
    ∀ (st : SimpleOrchestrator) (sent : List Message),
      st.message_queue.Pairwise (fun a b => msgLE a b = true) →
      st.message_queue.Perm sent →
      (∀ pv ts, st.message_queue.filter
          (fun m => decide (sortKey m = (pv, ts))) =
        sent.filter (fun m => decide (sortKey m = (pv, ts)))) →
      ((ops.foldl applySendOp st).message_queue.Pairwise
        (fun a b => msgLE a b = true)) ∧
      ((ops.foldl applySendOp st).message_queue.Perm
        (sent ++ ops.map enqueuedMsg)) ∧
      (∀ pv ts, (ops.foldl applySendOp st).message_queue.filter
          (fun m => decide (sortKey m = (pv, ts))) =
        (sent ++ ops.map enqueuedMsg).filter
          (fun m => decide (sortKey m = (pv, ts)))) := by
  induction ops with
  | nil =>
    intro st sent hs hperm hfil
    simp only [List.foldl_nil, List.map_nil, List.append_nil]
    exact ⟨hs, hperm, hfil⟩
  | cons op rest ih =>
    intro st sent hs hperm hfil
    have hqop : (applySendOp st op).message_queue =
        (st.message_queue ++ [enqueuedMsg op]).mergeSort msgLE := by
      cases op with
      | send m => rfl
      | broadcast m => rfl
    have h1 := ih (applySendOp st op) (sent ++ [enqueuedMsg op])
      (by
        rw [hqop]
        exact List.sorted_mergeSort msgLE_trans msgLE_total _)
      (by
        rw [hqop]
        exact (List.mergeSort_perm _ _).trans (hperm.append (List.Perm.refl _)))
      (by
        intro pv ts
        rw [hqop, mergeSort_filter_key, List.filter_append, hfil pv ts,
          ← List.filter_append])
    simp only [List.foldl_cons, List.map_cons]
    refine ⟨h1.1, ?_, ?_⟩
    · have h2 := h1.2.1
      rwa [List.append_assoc, List.singleton_append] at h2
    · intro pv ts
      have h2 := h1.2.2 pv ts
      rwa [List.append_assoc, List.singleton_append] at h2

/-- C3: after every sequence of `send_message` / `broadcast_message` calls
on a fresh orchestrator, the message queue is totally ordered by priority
descending with ties broken by timestamp ascending; it holds exactly the
messages sent; and for each fixed (priority, timestamp) key the messages
with that key appear in their enqueue order (Python's `list.sort` is
stable, as is `List.mergeSort`). -/
theorem message_queue_sorted_stable (ops : List SendOp) :
    ((ops.foldl applySendOp SimpleOrchestrator.new).message_queue.Pairwise
      queueOrdered) ∧
    ((ops.foldl applySendOp SimpleOrchestrator.new).message_queue.Perm
      (ops.map enqueuedMsg)) ∧
    (∀ pv ts, (ops.foldl applySendOp SimpleOrchestrator.new).message_queue.filter
        (fun m => decide (sortKey m = (pv, ts))) =
      (ops.map enqueuedMsg).filter (fun m => decide (sortKey m = (pv, ts)))) := by
  have h := foldl_sendops_invariant ops SimpleOrchestrator.new []
    List.Pairwise.nil (List.Perm.refl _) (fun pv ts => rfl)
  refine ⟨h.1.imp ?_, by simpa using h.2.1, ?_⟩
  · intro a b hab
    simp only [msgLE, Bool.or_eq_true, Bool.and_eq_true, decide_eq_true_eq]
      at hab
    unfold queueOrdered
    omega
  · intro pv ts
    have h2 := h.2.2 pv ts
    simpa using h2

end Cognitex
